import Mathlib

/-!
Verification of the Jinglitai JLT4013A panel driver
(`panel-jinglitai-jlt4013a.c`, the complete revision carrying the full
ST7701S register script).

The driver is shallowly embedded as follows:
* the 9-bit SPI bus word built by `st7701s_spi_write` is modelled by
  `st7701s_txbuf` (the C local `txbuf`);
* the imperative sequence of `ST7701S_TRY`-guarded writes and `msleep`
  calls inside `jlt4013a_prepare` is transcribed, in source order, as the
  action list `jlt4013a_script`, and `runScript` executes it against a
  fault-injection function `spi : Nat → Int` giving the return value of
  the n-th `spi_sync` call (0 = success, Linux convention);
* `jlt4013a_prepare` / `jlt4013a_unprepare` / `jlt4013a_get_modes` return
  the C return value together with the trace of externally visible
  effects (regulator calls, reset GPIO writes, sleeps, bus transfers).
-/

set_option maxRecDepth 8000

/-- The C enum of 9-bit word kinds (named `st7701s_` `prefix` in the source;
renamed here). `ST7701S_COMMAND = 0`, `ST7701S_DATA = 1`, as in the C enum. -/
inductive st7701s_kind : Type where
  | ST7701S_COMMAND : st7701s_kind
  | ST7701S_DATA : st7701s_kind
  deriving DecidableEq

/-- Numeric value of the C enum constant. -/
def st7701s_kind.val : st7701s_kind → Nat
  | .ST7701S_COMMAND => 0
  | .ST7701S_DATA => 1

/-- The 9-bit bus word built by `st7701s_spi_write`:
`u16 txbuf = ((prefix & 1) << 8) | data;` with `data : u8`.
The `% 256` is the `u8` range of `data`, the `% 65536` the `u16` store. -/
def st7701s_txbuf (k : st7701s_kind) (data : Nat) : Nat :=
  (((k.val &&& 1) <<< 8) ||| (data % 256)) % 65536

/- Register name constants, as `#define`d in the source. -/

def ST7701S_SWRESET : Nat := 0x01
def ST7701S_SLPOUT : Nat := 0x11
def ST7701S_DISPOFF : Nat := 0x28
def ST7701S_DISPON : Nat := 0x29
def ST7701S_COLMOD : Nat := 0x3A
def ST7701S_CN2BKxSEL : Nat := 0xFF
def ST7701S_LNESET : Nat := 0xC0
def ST7701S_PORCTRL : Nat := 0xC1
def ST7701S_INVSET : Nat := 0xC2
def ST7701S_PVGAMCTRL : Nat := 0xB0
def ST7701S_NVGAMCTRL : Nat := 0xB1
def ST7701S_VRHS : Nat := 0xB0
def ST7701S_VCOM : Nat := 0xB1
def ST7701S_VGHSS : Nat := 0xB2
def ST7701S_TESTCMD : Nat := 0xB3
def ST7701S_VGLS : Nat := 0xB5
def ST7701S_PWCTRL1 : Nat := 0xB7
def ST7701S_PWCTRL2 : Nat := 0xB8
def ST7701S_PWCTRL3 : Nat := 0xB9
def ST7701S_SPD1 : Nat := 0xC1
def ST7701S_SPD2 : Nat := 0xC2
def ST7701S_MIPISET1 : Nat := 0xD0

/-- One step of the body of `jlt4013a_prepare` after the reset routine:
either an `st7701s_spi_write` (via `st7701s_write_command` /
`st7701s_write_data`) or an `msleep`. -/
inductive ScriptAction : Type where
  | write : st7701s_kind → Nat → ScriptAction
  | sleep : Nat → ScriptAction
  deriving DecidableEq

/-- Embeds `st7701s_write_command ctx c` as a script action. -/
def cmdw (c : Nat) : ScriptAction := ScriptAction.write st7701s_kind.ST7701S_COMMAND c

/-- Embeds `st7701s_write_data ctx d` as a script action. -/
def datw (d : Nat) : ScriptAction := ScriptAction.write st7701s_kind.ST7701S_DATA d

/-- Externally visible effects of the driver, in order of occurrence. -/
inductive Event : Type where
  | powerEnable : Event
  | powerDisable : Event
  | resetSet : Bool → Event
  | sleep : Nat → Event
  | xfer : Nat → Event
  deriving DecidableEq

/-- The initialization routine of `jlt4013a_prepare` (source lines from the
`ST7701S_SLPOUT` write down to the final `msleep(120)`), transcribed
verbatim in source order. -/
def jlt4013a_script : List ScriptAction := [
  cmdw ST7701S_SLPOUT, ScriptAction.sleep 120,
  -- BK0
  cmdw ST7701S_CN2BKxSEL, datw 0x77, datw 0x01, datw 0x00, datw 0x00, datw 0x10,
  -- 854 as Table 12.3.2.7
  cmdw ST7701S_LNESET, datw 0xE9, datw 0x03,
  cmdw ST7701S_PORCTRL, datw 0x11, datw 0x02,
  cmdw ST7701S_INVSET, datw 0x31, datw 0x03,
  -- Something strange
  cmdw 0xCC, datw 0x10,
  cmdw ST7701S_PVGAMCTRL, datw 0x40, datw 0x01, datw 0x46, datw 0x0D, datw 0x13, datw 0x09,
  datw 0x05, datw 0x09, datw 0x09, datw 0x1B, datw 0x07, datw 0x15, datw 0x12, datw 0x4C,
  datw 0x10, datw 0xC8,
  cmdw ST7701S_NVGAMCTRL, datw 0x40, datw 0x02, datw 0x86, datw 0x0D, datw 0x13, datw 0x09,
  datw 0x05, datw 0x09, datw 0x09, datw 0x1F, datw 0x07, datw 0x15, datw 0x12, datw 0x15,
  datw 0x19, datw 0x08,
  -- BK1
  cmdw ST7701S_CN2BKxSEL, datw 0x77, datw 0x01, datw 0x00, datw 0x00, datw 0x11,
  cmdw ST7701S_VRHS, datw 0x50,
  cmdw ST7701S_VCOM, datw 0x68,
  cmdw ST7701S_VGHSS, datw 0x07,
  cmdw ST7701S_TESTCMD, datw 0x80,
  cmdw ST7701S_VGLS, datw 0x47,
  cmdw ST7701S_PWCTRL1, datw 0x85,
  cmdw ST7701S_PWCTRL2, datw 0x21,
  cmdw ST7701S_PWCTRL3, datw 0x10,
  cmdw ST7701S_SPD1, datw 0x21, datw 0x36,
  cmdw ST7701S_SPD2, datw 0x78,
  cmdw ST7701S_MIPISET1, datw 0b01001001, -- CRC error only?
  -- Something strange
  cmdw 0xE0, datw 0x00, datw 0x00, datw 0x02,
  cmdw 0xE1, datw 0x08, datw 0x00, datw 0x0A, datw 0x00, datw 0x07, datw 0x00, datw 0x09,
  datw 0x00, datw 0x00, datw 0x33, datw 0x33,
  cmdw 0xE2, datw 0x00, datw 0x00, datw 0x00, datw 0x00, datw 0x00, datw 0x00, datw 0x00,
  datw 0x00, datw 0x00, datw 0x00, datw 0x00, datw 0x00, datw 0x00,
  cmdw 0xE3, datw 0x00, datw 0x00, datw 0x33, datw 0x33,
  cmdw 0xE4, datw 0x44, datw 0x44,
  cmdw 0xE5, datw 0x0E, datw 0x2D, datw 0xA0, datw 0xA0, datw 0x10, datw 0x2D, datw 0xA0,
  datw 0xA0, datw 0x0A, datw 0x2D, datw 0xA0, datw 0xA0, datw 0x0C, datw 0x2D, datw 0xA0,
  datw 0xA0,
  cmdw 0xE6, datw 0x00, datw 0x00, datw 0x33, datw 0x33,
  cmdw 0xE7, datw 0x44, datw 0x44,
  cmdw 0xE8, datw 0x0D, datw 0x2D, datw 0xA0, datw 0xA0, datw 0x0F, datw 0x2D, datw 0xA0,
  datw 0xA0, datw 0x09, datw 0x2D, datw 0xA0, datw 0xA0, datw 0x0B, datw 0x2D, datw 0xA0,
  datw 0xA0,
  cmdw 0xEB, datw 0x02, datw 0x01, datw 0xE4, datw 0xE4, datw 0x44, datw 0x00, datw 0x40,
  cmdw 0xEC, datw 0x02, datw 0x01,
  cmdw 0xED, datw 0xAB, datw 0x89, datw 0x76, datw 0x54, datw 0x01, datw 0xFF, datw 0xFF,
  datw 0xFF, datw 0xFF, datw 0xFF, datw 0xFF, datw 0x10, datw 0x45, datw 0x67, datw 0x98,
  datw 0xBA,
  -- BK disable
  cmdw ST7701S_CN2BKxSEL, datw 0x77, datw 0x01, datw 0x00, datw 0x00, datw 0x00,
  cmdw ST7701S_COLMOD, datw 0x70,
  cmdw ST7701S_DISPON,
  ScriptAction.sleep 120 ]

/-- Executes script actions in order. `spi n` is the result of the n-th
`spi_sync` call (call indices count from `n` upward). A write whose
`spi_sync` result is nonzero makes the `ST7701S_TRY` macro return that
value at once; the failing transfer itself is recorded in the trace. -/
def runScript (spi : Nat → Int) : Nat → List ScriptAction → Int × List Event
  | _, [] => (0, [])
  | n, ScriptAction.sleep ms :: rest =>
    let res := runScript spi n rest
    (res.1, Event.sleep ms :: res.2)
  | n, ScriptAction.write k d :: rest =>
    let w := st7701s_txbuf k d
    let r := spi n
    if r ≠ 0 then (r, [Event.xfer w])
    else
      let res := runScript spi (n + 1) rest
      (res.1, Event.xfer w :: res.2)

/-- Number of bus writes (fallible calls) in a script. -/
def writeCount (l : List ScriptAction) : Nat :=
  l.countP fun a => match a with | ScriptAction.write _ _ => true | ScriptAction.sleep _ => false

/-- Models `jlt4013a_prepare`. Here `reg_en` is the `regulator_enable` result; on
failure the function returns it before touching the reset line or the
bus. On success: `msleep(120)`, reset 1, `msleep(120)`, reset 0,
`msleep(120)`, then the initialization routine `jlt4013a_script`. -/
def jlt4013a_prepare (reg_en : Int) (spi : Nat → Int) : Int × List Event :=
  if reg_en ≠ 0 then (reg_en, [Event.powerEnable])
  else
    let res := runScript spi 0 jlt4013a_script
    (res.1, Event.powerEnable :: Event.sleep 120 :: Event.resetSet true :: Event.sleep 120 ::
      Event.resetSet false :: Event.sleep 120 :: res.2)

/-- Models `jlt4013a_unprepare`: one `regulator_disable` call, its result
returned unchanged. -/
def jlt4013a_unprepare (reg_dis : Int) : Int × List Event :=
  (reg_dis, [Event.powerDisable])

/- Trace observation helpers. -/

/-- The bus word of a transfer event, if any. -/
def evXferWord : Event → Option Nat
  | Event.xfer w => some w
  | _ => none

/-- The level of a reset-line write event, if any. -/
def evResetSet : Event → Option Bool
  | Event.resetSet b => some b
  | _ => none

/-- Whether an event is the `regulator_enable` call. -/
def evIsPowerEnable : Event → Bool
  | Event.powerEnable => true
  | _ => false

/-- Whether an event is the `regulator_disable` call. -/
def evIsPowerDisable : Event → Bool
  | Event.powerDisable => true
  | _ => false

/-- The bus words transferred, in order. -/
def xferWords (evs : List Event) : List Nat := evs.filterMap evXferWord

/-- The number of bus transfers performed. -/
def xferCount (evs : List Event) : Nat := (xferWords evs).length

/-- The reset-line levels written, in order. -/
def resetSets (evs : List Event) : List Bool := evs.filterMap evResetSet

/-- The number of `regulator_enable` calls. -/
def powerEnableCount (evs : List Event) : Nat := evs.countP evIsPowerEnable

/-- The number of `regulator_disable` calls. -/
def powerDisableCount (evs : List Event) : Nat := evs.countP evIsPowerDisable

/-- Groups a script into Register Steps: each command byte opens a step
collecting the data bytes that follow it (sleeps are not steps). -/
def stepsOfAux : List ScriptAction → List (Nat × List Nat) → List (Nat × List Nat)
  | [], acc => acc.reverse
  | ScriptAction.sleep _ :: rest, acc => stepsOfAux rest acc
  | ScriptAction.write st7701s_kind.ST7701S_COMMAND c :: rest, acc => stepsOfAux rest ((c, []) :: acc)
  | ScriptAction.write st7701s_kind.ST7701S_DATA d :: rest, acc =>
    match acc with
    | [] => stepsOfAux rest []
    | (c, ds) :: acc2 => stepsOfAux rest ((c, ds ++ [d]) :: acc2)

/-- The Register Steps of a script, in order. -/
def stepsOf (l : List ScriptAction) : List (Nat × List Nat) := stepsOfAux l []

/- Mode query (`jlt4013a_get_modes`) embedding. DRM/kernel constants are
the values of the corresponding Linux UAPI macros. -/

def DRM_MODE_TYPE_PREFERRED : Nat := 8
def DRM_MODE_TYPE_DRIVER : Nat := 64
def DRM_BUS_FLAG_PIXDATA_DRIVE_POSEDGE : Nat := 4
def MEDIA_BUS_FMT_RGB888_1X24 : Nat := 0x100a
def EAGAIN : Int := 11

/-- The fields of `struct drm_display_mode` the driver reads or writes. -/
structure drm_display_mode : Type where
  clock : Nat
  hdisplay : Nat
  hsync_start : Nat
  hsync_end : Nat
  htotal : Nat
  vdisplay : Nat
  vsync_start : Nat
  vsync_end : Nat
  vtotal : Nat
  width_mm : Nat
  height_mm : Nat
  type : Nat
  deriving DecidableEq

/-- The static `jlt4013a_default_display_mode` table (`.type` is zero by
static initialization). -/
def jlt4013a_default_display_mode : drm_display_mode :=
  { clock := 14616
    hdisplay := 480
    hsync_start := 480 + 32 -- 512
    hsync_end := 480 + 32 + 11 -- 523
    htotal := 480 + 32 + 11 + 2 -- 525
    vdisplay := 800
    vsync_start := 800 + 54 -- 854
    vsync_end := 800 + 54 + 41 -- 895
    vtotal := 800 + 54 + 41 + 33 -- 928
    width_mm := 52
    height_mm := 86
    type := 0 }

/-- The fields of `connector->display_info` the driver writes. -/
structure drm_display_info : Type where
  width_mm : Nat
  height_mm : Nat
  bpc : Nat
  bus_flags : Nat
  bus_formats : List Nat
  deriving DecidableEq

/-- A connector: its display info and the list of probed modes
(`drm_mode_probed_add` appends to it). -/
structure drm_connector : Type where
  display_info : drm_display_info
  probed_modes : List drm_display_mode
  deriving DecidableEq

/-- Models `jlt4013a_get_modes`. Here `dup_ok` tells whether `drm_mode_duplicate`
succeeds (it returns NULL on allocation failure, upon which the function
returns `-EAGAIN` and touches nothing). On success the duplicated mode is
marked `DRM_MODE_TYPE_PREFERRED | DRM_MODE_TYPE_DRIVER`, the display info
is filled in, the mode is probed-added, and the function returns 1. -/
def jlt4013a_get_modes (dup_ok : Bool) (conn : drm_connector) : Int × drm_connector :=
  if dup_ok = false then (-EAGAIN, conn)
  else
    let mode := { jlt4013a_default_display_mode with
                  type := DRM_MODE_TYPE_PREFERRED ||| DRM_MODE_TYPE_DRIVER }
    let info := { conn.display_info with
                  width_mm := mode.width_mm
                  height_mm := mode.height_mm
                  bpc := 8
                  bus_flags := DRM_BUS_FLAG_PIXDATA_DRIVE_POSEDGE
                  bus_formats := [MEDIA_BUS_FMT_RGB888_1X24] }
    (1, { display_info := info, probed_modes := conn.probed_modes ++ [mode] })

/- Concrete inputs used by witnesses and counterexamples. -/

/-- A fault-free SPI bus: every transfer succeeds. -/
def spiOk : Nat → Int := fun _ => 0

/-- A bus whose very first transfer fails with error `-5` (`-EIO`). -/
def spiFail0 : Nat → Int := fun n => if n = 0 then -5 else 0

/-- An empty connector. -/
def conn0 : drm_connector :=
  { display_info := { width_mm := 0, height_mm := 0, bpc := 0, bus_flags := 0, bus_formats := [] }
    probed_modes := [] }

/-- Claim C2: for every kind and every 8-bit byte, the encoded bus word has
bit 8 set iff the kind is `ST7701S_DATA`, its low 8 bits are the payload
byte unmodified, and the word fits in 9 bits. -/
theorem st7701s_txbuf_spec (k : st7701s_kind) (b : Nat) (hb : b < 256) :
    (Nat.testBit (st7701s_txbuf k b) 8 = true ↔ k = st7701s_kind.ST7701S_DATA) ∧
    st7701s_txbuf k b % 256 = b ∧ st7701s_txbuf k b < 512 := by
  cases k <;> (revert b; decide)

/-- Witness for C2 at kind `ST7701S_DATA`, byte `0xAB`. -/
theorem st7701s_txbuf_spec_witness :
    (0xAB : Nat) < 256 ∧
    ((Nat.testBit (st7701s_txbuf st7701s_kind.ST7701S_DATA 0xAB) 8 = true ↔
        st7701s_kind.ST7701S_DATA = st7701s_kind.ST7701S_DATA) ∧
      st7701s_txbuf st7701s_kind.ST7701S_DATA 0xAB % 256 = 0xAB ∧
      st7701s_txbuf st7701s_kind.ST7701S_DATA 0xAB < 512) :=
  ⟨by decide, st7701s_txbuf_spec st7701s_kind.ST7701S_DATA 0xAB (by decide)⟩

/- Helper lemmas about `runScript`. -/

/-- Running a script writes nothing to the reset line. -/
theorem runScript_resetSets (spi : Nat → Int) (l : List ScriptAction) :
    ∀ n, resetSets (runScript spi n l).2 = [] := by
  induction l with
  | nil => intro n; simp [runScript, resetSets]
  | cons a rest ih =>
    intro n
    cases a with
    | sleep ms =>
      simpa [runScript, resetSets, evResetSet] using ih n
    | write k d =>
      by_cases hr : spi n = 0
      · simpa [runScript, hr, resetSets, evResetSet] using ih (n + 1)
      · simp [runScript, hr, resetSets, evResetSet]

/-- Running a script never calls `regulator_enable`. -/
theorem runScript_powerEnableCount (spi : Nat → Int) (l : List ScriptAction) :
    ∀ n, powerEnableCount (runScript spi n l).2 = 0 := by
  induction l with
  | nil => intro n; simp [runScript, powerEnableCount]
  | cons a rest ih =>
    intro n
    cases a with
    | sleep ms =>
      simpa [runScript, powerEnableCount, evIsPowerEnable] using ih n
    | write k d =>
      by_cases hr : spi n = 0
      · simpa [runScript, hr, powerEnableCount, evIsPowerEnable] using ih (n + 1)
      · simp [runScript, hr, powerEnableCount, evIsPowerEnable]

/-- Running a script never calls `regulator_disable`. -/
theorem runScript_powerDisableCount (spi : Nat → Int) (l : List ScriptAction) :
    ∀ n, powerDisableCount (runScript spi n l).2 = 0 := by
  induction l with
  | nil => intro n; simp [runScript, powerDisableCount]
  | cons a rest ih =>
    intro n
    cases a with
    | sleep ms =>
      simpa [runScript, powerDisableCount, evIsPowerDisable] using ih n
    | write k d =>
      by_cases hr : spi n = 0
      · simpa [runScript, hr, powerDisableCount, evIsPowerDisable] using ih (n + 1)
      · simp [runScript, hr, powerDisableCount, evIsPowerDisable]

/-- Fail-fast behaviour of `runScript`: if the bus calls at indices
`n, …, n+m-1` succeed and the one at `n+m` fails with `e`, and the script
holds more than `m` writes, then the run returns `e` and performs exactly
`m + 1` transfers. -/
theorem runScript_first_fail (spi : Nat → Int) (l : List ScriptAction) :
    ∀ (n m : Nat) (e : Int), m < writeCount l → e ≠ 0 →
      (∀ j, j < m → spi (n + j) = 0) → spi (n + m) = e →
      (runScript spi n l).1 = e ∧ xferCount (runScript spi n l).2 = m + 1 := by
  induction l with
  | nil =>
    intro n m e hm _ _ _
    simp [writeCount] at hm
  | cons a rest ih =>
    intro n m e hm he hpre hfail
    cases a with
    | sleep ms =>
      have hm2 : m < writeCount rest := by
        simpa [writeCount, List.countP_cons] using hm
      have h := ih n m e hm2 he hpre hfail
      simpa [runScript, xferCount, xferWords, evXferWord] using h
    | write k d =>
      cases m with
      | zero =>
        have h0 : spi n = e := by simpa using hfail
        simp [runScript, h0, he, xferCount, xferWords, evXferWord]
      | succ m2 =>
        have h0 : spi n = 0 := by simpa using hpre 0 (Nat.succ_pos m2)
        have hm2 : m2 < writeCount rest := by
          have hc : writeCount (ScriptAction.write k d :: rest) = writeCount rest + 1 := by
            simp [writeCount, List.countP_cons]
          omega
        have hpre2 : ∀ j, j < m2 → spi (n + 1 + j) = 0 := by
          intro j hj
          have heq : n + 1 + j = n + (j + 1) := by omega
          rw [heq]
          exact hpre (j + 1) (by omega)
        have hfail2 : spi (n + 1 + m2) = e := by
          have heq : n + 1 + m2 = n + (m2 + 1) := by omega
          rw [heq]
          exact hfail
        have h := ih (n + 1) m2 e hm2 he hpre2 hfail2
        constructor
        · simpa [runScript, h0] using h.1
        · have h2 := h.2
          simp [runScript, h0, xferCount, xferWords, evXferWord] at h2 ⊢
          omega

/-- Unfolding lemma: the contribution of one event to the power-enable count. -/
theorem powerEnableCount_cons (a : Event) (l : List Event) :
    powerEnableCount (a :: l) = powerEnableCount l + (if evIsPowerEnable a = true then 1 else 0) := by
  simp [powerEnableCount, List.countP_cons]

/-- Unfolding lemma: the contribution of one event to the power-disable count. -/
theorem powerDisableCount_cons (a : Event) (l : List Event) :
    powerDisableCount (a :: l) = powerDisableCount l + (if evIsPowerDisable a = true then 1 else 0) := by
  simp [powerDisableCount, List.countP_cons]

/-- The power-disable count is additive over trace concatenation. -/
theorem powerDisableCount_append (l1 l2 : List Event) :
    powerDisableCount (l1 ++ l2) = powerDisableCount l1 + powerDisableCount l2 := by
  simp [powerDisableCount, List.countP_append]

/-- A non-reset event contributes nothing to the reset-write list. -/
theorem resetSets_cons_none (a : Event) (l : List Event) (h : evResetSet a = none) :
    resetSets (a :: l) = resetSets l := by
  simp [resetSets, List.filterMap_cons, h]

/-- A reset event prepends its level to the reset-write list. -/
theorem resetSets_cons_some (a : Event) (b : Bool) (l : List Event) (h : evResetSet a = some b) :
    resetSets (a :: l) = b :: resetSets l := by
  simp [resetSets, List.filterMap_cons, h]

/-- Claim C1: a `prepare` call on a fresh instance in which every
sub-operation succeeds calls power-enable exactly once, sets the reset
line exactly twice (true then false), transfers the sleep-out command as
the very first bus word — hence before any Bank-0 command, in particular
before the first bank-select command — and transfers DISPON strictly
after the COLMOD command and its data byte and strictly after every
bank-select command (so after the bank-disable step, whose select command
is the last one); `prepare` returns success (0). -/
theorem jlt4013a_prepare_success_trace (s : Nat → Int) (hspi : ∀ n, s n = 0) :
    (jlt4013a_prepare 0 s).1 = 0 ∧
    powerEnableCount (jlt4013a_prepare 0 s).2 = 1 ∧
    resetSets (jlt4013a_prepare 0 s).2 = [true, false] ∧
    (xferWords (jlt4013a_prepare 0 s).2).indexOf
        (st7701s_txbuf st7701s_kind.ST7701S_COMMAND ST7701S_SLPOUT) = 0 ∧
    (xferWords (jlt4013a_prepare 0 s).2).indexOf
        (st7701s_txbuf st7701s_kind.ST7701S_COMMAND ST7701S_SLPOUT) <
      (xferWords (jlt4013a_prepare 0 s).2).indexOf
        (st7701s_txbuf st7701s_kind.ST7701S_COMMAND ST7701S_CN2BKxSEL) ∧
    (xferWords (jlt4013a_prepare 0 s).2).indexOf
        (st7701s_txbuf st7701s_kind.ST7701S_COMMAND ST7701S_COLMOD) <
      (xferWords (jlt4013a_prepare 0 s).2).indexOf
        (st7701s_txbuf st7701s_kind.ST7701S_COMMAND ST7701S_DISPON) ∧
    (xferWords (jlt4013a_prepare 0 s).2).indexOf
        (st7701s_txbuf st7701s_kind.ST7701S_DATA 0x70) <
      (xferWords (jlt4013a_prepare 0 s).2).indexOf
        (st7701s_txbuf st7701s_kind.ST7701S_COMMAND ST7701S_DISPON) ∧
    (∀ p ∈ (xferWords (jlt4013a_prepare 0 s).2).enum,
      p.2 = st7701s_txbuf st7701s_kind.ST7701S_COMMAND ST7701S_CN2BKxSEL →
      p.1 < (xferWords (jlt4013a_prepare 0 s).2).indexOf
        (st7701s_txbuf st7701s_kind.ST7701S_COMMAND ST7701S_DISPON)) ∧
    (xferWords (jlt4013a_prepare 0 s).2).getLast? =
      some (st7701s_txbuf st7701s_kind.ST7701S_COMMAND ST7701S_DISPON) := by
  have hs : s = spiOk := funext hspi
  subst hs
  decide

/-- Witness for C1 at the fault-free bus `spiOk`. -/
theorem jlt4013a_prepare_success_trace_witness :
    (jlt4013a_prepare 0 spiOk).1 = 0 ∧ resetSets (jlt4013a_prepare 0 spiOk).2 = [true, false] :=
  ⟨(jlt4013a_prepare_success_trace spiOk fun _ => rfl).1,
    (jlt4013a_prepare_success_trace spiOk fun _ => rfl).2.2.1⟩

/-- Claim C3: if during `prepare` the bus calls with 0-based indices
`0, …, k-1` succeed and the call with index `k` (the (k+1)-th transfer)
fails with error `e`, then `prepare` performs exactly `k + 1` transfers —
so the next transfer is never attempted — and returns `e` unchanged. -/
theorem jlt4013a_prepare_fail_fast (s : Nat → Int) (k : Nat) (e : Int)
    (hk : k < writeCount jlt4013a_script) (he : e ≠ 0)
    (hpre : ∀ j, j < k → s j = 0) (hfail : s k = e) :
    (jlt4013a_prepare 0 s).1 = e ∧ xferCount (jlt4013a_prepare 0 s).2 = k + 1 := by
  have h := runScript_first_fail s jlt4013a_script 0 k e hk he
    (fun j hj => by simpa using hpre j hj) (by simpa using hfail)
  constructor
  · simpa [jlt4013a_prepare] using h.1
  · have h2 := h.2
    simp [jlt4013a_prepare, xferCount, xferWords, evXferWord] at h2 ⊢
    omega

/-- Witness for C3: first transfer (index 0) fails with `-5`; exactly one
transfer happens and `-5` is returned. -/
theorem jlt4013a_prepare_fail_fast_witness :
    (jlt4013a_prepare 0 spiFail0).1 = -5 ∧ xferCount (jlt4013a_prepare 0 spiFail0).2 = 0 + 1 :=
  jlt4013a_prepare_fail_fast spiFail0 0 (-5) (by decide) (by decide)
    (fun j hj => absurd hj (Nat.not_lt_zero j)) (by decide)

/-- Claim C6: if `regulator_enable` fails at the start of `prepare`, the
error is returned unchanged and the trace shows no reset-line write and
no bus transfer — only the one power-enable call. -/
theorem jlt4013a_prepare_power_fail (e : Int) (s : Nat → Int) (he : e ≠ 0) :
    (jlt4013a_prepare e s).1 = e ∧
    resetSets (jlt4013a_prepare e s).2 = [] ∧
    xferCount (jlt4013a_prepare e s).2 = 0 ∧
    powerEnableCount (jlt4013a_prepare e s).2 = 1 := by
  simp [jlt4013a_prepare, he, resetSets, evResetSet, xferCount, xferWords, evXferWord,
    powerEnableCount, evIsPowerEnable]

/-- Witness for C6 at error `-3`. -/
theorem jlt4013a_prepare_power_fail_witness :
    (jlt4013a_prepare (-3) spiOk).1 = -3 ∧
    resetSets (jlt4013a_prepare (-3) spiOk).2 = [] ∧
    xferCount (jlt4013a_prepare (-3) spiOk).2 = 0 ∧
    powerEnableCount (jlt4013a_prepare (-3) spiOk).2 = 1 :=
  jlt4013a_prepare_power_fail (-3) spiOk (by decide)

/-- Claim C9: when a bus transfer fails during `prepare` after power-enable
succeeded, `prepare` returns the error with no compensating action: the
trace holds exactly one power-enable, no power-disable, and exactly the
two reset writes true-then-false from the reset routine (so the supply is
left enabled and the reset line deasserted). -/
theorem jlt4013a_prepare_fail_frame (s : Nat → Int) (k : Nat) (e : Int)
    (hk : k < writeCount jlt4013a_script) (he : e ≠ 0)
    (hpre : ∀ j, j < k → s j = 0) (hfail : s k = e) :
    (jlt4013a_prepare 0 s).1 = e ∧
    powerEnableCount (jlt4013a_prepare 0 s).2 = 1 ∧
    powerDisableCount (jlt4013a_prepare 0 s).2 = 0 ∧
    resetSets (jlt4013a_prepare 0 s).2 = [true, false] := by
  have h := runScript_first_fail s jlt4013a_script 0 k e hk he
    (fun j hj => by simpa using hpre j hj) (by simpa using hfail)
  have htrace : (jlt4013a_prepare 0 s).2 = Event.powerEnable :: Event.sleep 120 ::
      Event.resetSet true :: Event.sleep 120 :: Event.resetSet false :: Event.sleep 120 ::
      (runScript s 0 jlt4013a_script).2 := rfl
  refine ⟨by simpa [jlt4013a_prepare] using h.1, ?_, ?_, ?_⟩
  · rw [htrace, powerEnableCount_cons, powerEnableCount_cons, powerEnableCount_cons,
      powerEnableCount_cons, powerEnableCount_cons, powerEnableCount_cons,
      runScript_powerEnableCount s jlt4013a_script 0]
    decide
  · rw [htrace, powerDisableCount_cons, powerDisableCount_cons, powerDisableCount_cons,
      powerDisableCount_cons, powerDisableCount_cons, powerDisableCount_cons,
      runScript_powerDisableCount s jlt4013a_script 0]
    decide
  · rw [htrace, resetSets_cons_none Event.powerEnable _ rfl,
      resetSets_cons_none (Event.sleep 120) _ rfl,
      resetSets_cons_some (Event.resetSet true) true _ rfl,
      resetSets_cons_none (Event.sleep 120) _ rfl,
      resetSets_cons_some (Event.resetSet false) false _ rfl,
      resetSets_cons_none (Event.sleep 120) _ rfl,
      runScript_resetSets s jlt4013a_script 0]

/-- Witness for C9: first transfer fails with `-5`; power stays enabled,
no power-disable, reset trace is true-then-false. -/
theorem jlt4013a_prepare_fail_frame_witness :
    (jlt4013a_prepare 0 spiFail0).1 = -5 ∧
    powerEnableCount (jlt4013a_prepare 0 spiFail0).2 = 1 ∧
    powerDisableCount (jlt4013a_prepare 0 spiFail0).2 = 0 ∧
    resetSets (jlt4013a_prepare 0 spiFail0).2 = [true, false] :=
  jlt4013a_prepare_fail_frame spiFail0 0 (-5) (by decide) (by decide)
    (fun j hj => absurd hj (Nat.not_lt_zero j)) (by decide)

/-- Claim C7: a fully successful `prepare` followed immediately by
`unprepare` calls power-disable exactly once over the combined trace and
`unprepare` returns the `regulator_disable` result unchanged — success
when the disable succeeds, the error when it fails. -/
theorem jlt4013a_prepare_then_unprepare (s : Nat → Int) (d : Int) (hspi : ∀ n, s n = 0) :
    (jlt4013a_prepare 0 s).1 = 0 ∧
    powerDisableCount ((jlt4013a_prepare 0 s).2 ++ (jlt4013a_unprepare d).2) = 1 ∧
    (jlt4013a_unprepare d).1 = d := by
  have hs : s = spiOk := funext hspi
  subst hs
  refine ⟨by decide, ?_, rfl⟩
  rw [powerDisableCount_append]
  have hp : powerDisableCount (jlt4013a_prepare 0 spiOk).2 = 0 := by decide
  have hu : powerDisableCount (jlt4013a_unprepare d).2 = 1 := rfl
  rw [hp, hu]

/-- Witness for C7 at the fault-free bus and a successful disable. -/
theorem jlt4013a_prepare_then_unprepare_witness :
    (jlt4013a_prepare 0 spiOk).1 = 0 ∧
    powerDisableCount ((jlt4013a_prepare 0 spiOk).2 ++ (jlt4013a_unprepare 0).2) = 1 ∧
    (jlt4013a_unprepare 0).1 = 0 :=
  jlt4013a_prepare_then_unprepare spiOk 0 fun _ => rfl

/-- Claim C8: the register script holds exactly three bank-select steps,
in the order Bank 0 select, Bank 1 select, bank disable; each is the
bank-select command byte `0xFF` followed by exactly five data bytes, the
first four being the magic 0x77 0x01 0x00 0x00 and the trailing
bank-index byte 0x10, 0x11 and 0x00 respectively. -/
theorem jlt4013a_script_bank_steps :
    (stepsOf jlt4013a_script).filter (fun st => st.1 == ST7701S_CN2BKxSEL) =
      [(ST7701S_CN2BKxSEL, [0x77, 0x01, 0x00, 0x00, 0x10]),
       (ST7701S_CN2BKxSEL, [0x77, 0x01, 0x00, 0x00, 0x11]),
       (ST7701S_CN2BKxSEL, [0x77, 0x01, 0x00, 0x00, 0x00])] := by
  decide

/-- Related fact for C5: the single COLMOD step of the register script
writes exactly one data byte after the COLMOD command, namely `0x70`.
(Whether `0x70` is the ST7701S controller encoding of the 18-bit-per-pixel
packed format is a property of the ST7701S datasheet, outside this
program.) -/
theorem jlt4013a_script_colmod_step :
    (stepsOf jlt4013a_script).filter (fun st => st.1 == ST7701S_COLMOD) =
      [(ST7701S_COLMOD, [0x70])] := by
  decide

/-- Claim C4, amended: every `get_modes` call in which duplicating the
fixed mode succeeds returns 1 and probe-adds exactly one Mode Descriptor,
whose fields are the fixed panel timing and which is marked both
preferred and driver-mandated. -/
theorem jlt4013a_get_modes_success (conn : drm_connector) :
    (jlt4013a_get_modes true conn).1 = 1 ∧
    ∃ m : drm_display_mode,
      (jlt4013a_get_modes true conn).2.probed_modes = conn.probed_modes ++ [m] ∧
      m.clock = 14616 ∧ m.hdisplay = 480 ∧ m.hsync_start = 512 ∧ m.hsync_end = 523 ∧
      m.htotal = 525 ∧ m.vdisplay = 800 ∧ m.vsync_start = 854 ∧ m.vsync_end = 895 ∧
      m.vtotal = 928 ∧ m.width_mm = 52 ∧ m.height_mm = 86 ∧
      m.type &&& DRM_MODE_TYPE_PREFERRED ≠ 0 ∧ m.type &&& DRM_MODE_TYPE_DRIVER ≠ 0 := by
  refine ⟨rfl, ⟨{ jlt4013a_default_display_mode with
    type := DRM_MODE_TYPE_PREFERRED ||| DRM_MODE_TYPE_DRIVER }, rfl, ?_⟩⟩
  decide

/-- Counterexample to C4 as stated: when duplicating the mode fails,
`get_modes` does not return exactly one descriptor — it returns `-EAGAIN`
(not 1) and adds no mode to the connector. -/
theorem jlt4013a_get_modes_alloc_fail_cex :
    (jlt4013a_get_modes false conn0).1 = -EAGAIN ∧
    (jlt4013a_get_modes false conn0).1 ≠ 1 ∧
    (jlt4013a_get_modes false conn0).2.probed_modes = [] := by
  refine ⟨rfl, by decide, rfl⟩

/-- Claim C10: `get_modes` has a failure path: when duplicating the fixed
mode fails (allocation returns null), it returns `-EAGAIN` (= -11) and
leaves the connector untouched, adding no mode. -/
theorem jlt4013a_get_modes_alloc_fail (conn : drm_connector) :
    (jlt4013a_get_modes false conn).1 = -EAGAIN ∧
    (jlt4013a_get_modes false conn).2 = conn ∧
    (-EAGAIN : Int) = -11 := by
  exact ⟨rfl, rfl, rfl⟩
